import Mathlib

/-!
Verification of `fplpicker.py` (fantasy-football squad picker).

The development shallowly embeds the source file:
  * monetary values, points and scraped stats are modelled as rationals;
  * the league-difficulty table, the stat-weighting function `weight_stats`,
    and the position-coefficient estimator `estimate_fpl_pts` are translated
    directly;
  * the PuLP integer-program in `optimize_squad` is embedded as an explicit
    feasibility predicate over player sublists, with the external solver
    modelled by an outcome record constrained by the documented semantics of
    the status value `Optimal` (the assignment is feasible and maximises the
    objective);
  * the cache layer (`get_external_no_cache_update`, `enrich_single`,
    `enrich`) is embedded with the external scrapers as oracle parameters.
-/

/-- One row of the players table, restricted to the fields the optimizer and
the presentation layer read: position, team, cost and projected points. -/
structure Player where
  name : String
  pos : String
  team : String
  cost : ℚ
  total_points : ℚ
deriving DecidableEq, Repr

/-- `BUDGET = 100.0` from the configuration section. -/
def BUDGET : ℚ := 100

/-- `SQUAD_STRUCTURE = {"GK": 2, "DEF": 5, "MID": 5, "FWD": 3}`. -/
def SQUAD_STRUCTURE : List (String × Nat) := [("GK", 2), ("DEF", 5), ("MID", 5), ("FWD", 3)]

/-- `MAX_PER_TEAM = 3`. -/
def MAX_PER_TEAM : Nat := 3

/-- The `LEAGUE_DIFFICULTY` table, verbatim. -/
def LEAGUE_DIFFICULTY : List (String × ℚ) :=
  [("Premier League", 90.6), ("La Liga", 84.8), ("Serie A", 84.8), ("Bundesliga", 84.2),
   ("Ligue 1", 84.3), ("Eredivisie", 77.2), ("Primeira Liga", 78.8), ("Belgian Pro League", 80.0),
   ("Championship", 79.5), ("Scottish Premiership", 74.0), ("Brazil Serie A", 80.8),
   ("MLS", 74.8), ("Argentine Primera", 77.5), ("Russian Premier League", 75.0),
   ("Turkish Super Lig", 75.0), ("Austrian Bundesliga", 75.0),
   ("Swiss Super League", 75.7), ("Mexican Liga MX", 73.5), ("Japanese J1 League", 70.0)]

/-- `PL_BASE = LEAGUE_DIFFICULTY["Premier League"]` (the key is present, so the
`getD` default is never taken). -/
def PL_BASE : ℚ := (LEAGUE_DIFFICULTY.lookup "Premier League").getD 0

/-- `weight_stats(goals, assists, league)`: scales goals and assists by
`LEAGUE_DIFFICULTY.get(league, PL_BASE) / PL_BASE`. -/
def weight_stats (goals assists : ℚ) (league : String) : ℚ × ℚ :=
  let rating := (LEAGUE_DIFFICULTY.lookup league).getD PL_BASE
  let factor := rating / PL_BASE
  (goals * factor, assists * factor)

/-- `estimate_fpl_pts(goals, assists, pos)`: goal weight 10 for "GK",
6 for "DEF", 5 for "MID" and 4 for every other position string (the final
`else` branch), plus a constant assist weight of 3. -/
def estimate_fpl_pts (goals assists : ℚ) (pos : String) : ℚ :=
  let gp : ℚ :=
    if pos = "GK" then 10
    else if pos = "DEF" then 6
    else if pos = "MID" then 5
    else 4
  goals * gp + assists * 3

/-- The league factor named by the spec: strength of the league (reference
strength for an unknown league) divided by the reference strength. -/
def leagueFactor (league : String) : ℚ :=
  ((LEAGUE_DIFFICULTY.lookup league).getD PL_BASE) / PL_BASE

/-- The goal-weight table exactly as the spec words it: 10 for goalkeepers,
6 for defenders, 5 for midfielders, 4 for forwards, nothing else. -/
def goalWeightSpec (pos : String) : Option ℚ :=
  if pos = "GK" then some 10
  else if pos = "DEF" then some 6
  else if pos = "MID" then some 5
  else if pos = "FWD" then some 4
  else none

/-- State-passing translation of the estimator pipeline
(`weight_stats` followed by `estimate_fpl_pts`, the composition used by
`enrich_single`).  The Python bodies read no mutable state — only their
arguments and the immutable `LEAGUE_DIFFICULTY` table — and perform no
writes, so the translation threads an arbitrary ambient state `s`
through unchanged. -/
def estimator_run {σ : Type} (s : σ) (goals assists : ℚ) (league pos : String) : ℚ × σ :=
  let gwaw := weight_stats goals assists league
  (estimate_fpl_pts gwaw.1 gwaw.2 pos, s)

/-- C4: For every (goals, assists, league, position) input, the estimated
points equal weighted_goals × goal_weight + weighted_assists × 3, where
weighted_goals = goals × factor, weighted_assists = assists × factor,
factor = leagueStrength(league) / referenceStrength (1.0 for a league not in
the table), and goal_weight follows the per-position table. -/
theorem C4_estimator_formula (goals assists : ℚ) (league pos : String) (w : ℚ)
    (hw : goalWeightSpec pos = some w) :
    estimate_fpl_pts (weight_stats goals assists league).1 (weight_stats goals assists league).2 pos
      = (goals * leagueFactor league) * w + (assists * leagueFactor league) * 3 ∧
    (LEAGUE_DIFFICULTY.lookup league = none → leagueFactor league = 1) := by
  constructor
  · unfold goalWeightSpec at hw
    unfold estimate_fpl_pts weight_stats leagueFactor
    by_cases h1 : pos = "GK"
    · simp [h1] at hw ⊢; subst hw; tauto
    by_cases h2 : pos = "DEF"
    · simp [h1, h2] at hw ⊢; subst hw; tauto
    by_cases h3 : pos = "MID"
    · simp [h1, h2, h3] at hw ⊢; subst hw; tauto
    by_cases h4 : pos = "FWD"
    · simp [h1, h2, h3, h4] at hw ⊢; subst hw; tauto
    · simp [h1, h2, h3, h4] at hw
  · intro hnone
    unfold leagueFactor
    rw [hnone]
    simp [PL_BASE]
    norm_num [LEAGUE_DIFFICULTY, List.lookup]

/-- Witness for C4 at a concrete input: a goalkeeper with 2 goals and
1 assist in a league absent from the table. -/
theorem C4_estimator_formula_witness :
    goalWeightSpec "GK" = some 10 ∧
    (estimate_fpl_pts (weight_stats 2 1 "Narnia League").1 (weight_stats 2 1 "Narnia League").2 "GK"
      = (2 * leagueFactor "Narnia League") * 10 + (1 * leagueFactor "Narnia League") * 3 ∧
     (LEAGUE_DIFFICULTY.lookup "Narnia League" = none → leagueFactor "Narnia League" = 1)) :=
  ⟨by decide, C4_estimator_formula 2 1 "Narnia League" "GK" 10 (by decide)⟩

/-- C9: The points estimator is deterministic and pure: its result depends
only on (goals, assists, league, position) — two runs from arbitrary,
possibly different ambient states return the same value — and the ambient
state is returned unchanged. -/
theorem C9_estimator_deterministic_pure {σ : Type} (s t : σ)
    (goals assists : ℚ) (league pos : String) :
    (estimator_run s goals assists league pos).1 = (estimator_run t goals assists league pos).1 ∧
    (estimator_run s goals assists league pos).2 = s := by
  constructor <;> rfl

/-- C10: for any position other than "GK", "DEF" or "MID" — including
unknown strings — the estimator silently applies the forward goal weight 4;
it never rejects a position string. -/
theorem C10_unknown_position_gets_forward_weight (goals assists : ℚ) (pos : String)
    (h1 : pos ≠ "GK") (h2 : pos ≠ "DEF") (h3 : pos ≠ "MID") :
    estimate_fpl_pts goals assists pos = goals * 4 + assists * 3 := by
  unfold estimate_fpl_pts
  simp [h1, h2, h3]

/-- Witness for C10 at the concrete invalid position string "???". -/
theorem C10_unknown_position_gets_forward_weight_witness :
    ("???" : String) ≠ "GK" ∧
    estimate_fpl_pts 1 1 "???" = 1 * 4 + 1 * 3 :=
  ⟨by decide,
   C10_unknown_position_gets_forward_weight 1 1 "???" (by decide) (by decide) (by decide)⟩

/-- Total squad cost: the sum `players.loc[idx, "cost"] * var` at a 0/1
assignment, i.e. the sum of the costs of the selected players. -/
def totalCost (l : List Player) : ℚ := (l.map Player.cost).sum

/-- The objective: total projected points of a selection. -/
def totalPoints (l : List Player) : ℚ := (l.map Player.total_points).sum

/-- Number of selected players whose position equals `pos`
(`players[players["pos"] == pos]`). -/
def countPos (l : List Player) (pos : String) : Nat :=
  (l.filter (fun p => p.pos == pos)).length

/-- Number of selected players from team `t`
(`players[players["team"] == team]`). -/
def countTeam (l : List Player) (t : String) : Nat :=
  (l.filter (fun p => p.team == t)).length

/-- `players["team"].unique()`: the distinct team names of the input. -/
def teamsOf (players : List Player) : List String :=
  (players.map Player.team).dedup

/-- The constraint system `optimize_squad` hands to PuLP, as a predicate on a
candidate selection (a sublist of the input): budget ceiling `<= BUDGET`,
budget floor `>= BUDGET * 0.99`, exact per-position counts from
`SQUAD_STRUCTURE`, and at most `MAX_PER_TEAM` players from each team
occurring in the input. -/
def Feasible (players squad : List Player) : Prop :=
  squad.Sublist players ∧
  totalCost squad ≤ BUDGET ∧
  BUDGET * 0.99 ≤ totalCost squad ∧
  (∀ pc ∈ SQUAD_STRUCTURE, countPos squad pc.1 = pc.2) ∧
  (∀ t ∈ teamsOf players, countTeam squad t ≤ MAX_PER_TEAM)

instance (players squad : List Player) : Decidable (Feasible players squad) := by
  unfold Feasible
  infer_instance

/-- The PuLP status values (`pulp.LpStatus`). -/
inductive LpStatus where
  | NotSolved
  | Optimal
  | Infeasible
  | Unbounded
  | Undefined
deriving DecidableEq, Repr

/-- The strings `pulp.LpStatus[prob.status]` maps the status codes to. -/
def statusName : LpStatus → String
  | .NotSolved => "Not Solved"
  | .Optimal => "Optimal"
  | .Infeasible => "Infeasible"
  | .Unbounded => "Unbounded"
  | .Undefined => "Undefined"

/-- Outcome of `prob.solve()`: the final status and the values of the
per-player decision variables, in input order. -/
structure SolverOutcome where
  status : LpStatus
  vals : List ℚ

/-- `selected_idx = [idx for idx, var in player_vars.items() if var.varValue
> 0.5]; players.loc[selected_idx]`: keep the players whose variable value
exceeds one half. -/
def selectedSquad (players : List Player) (vals : List ℚ) : List Player :=
  ((players.zip vals).filter (fun pv => decide ((0.5 : ℚ) < pv.2))).map Prod.fst

/-- Semantics of the external exact solver (CBC via PuLP), the collaborator
the code calls in `prob.solve()`: whenever the reported status is `Optimal`,
the returned assignment is feasible for the posed constraints and maximises
the posed objective.  Nothing is assumed about any other status. -/
def SolverOk (players : List Player) (sol : SolverOutcome) : Prop :=
  sol.status = LpStatus.Optimal →
    Feasible players (selectedSquad players sol.vals) ∧
    ∀ other : List Player, Feasible players other →
      totalPoints other ≤ totalPoints (selectedSquad players sol.vals)

/-- `optimize_squad`: builds the integer program, solves it, prints a warning
when the status is not `Optimal`, and in every case returns the players whose
variables exceed 0.5.  The first component models the warning printed on a
non-`Optimal` status; there is no other error path in the function. -/
def optimize_squad (players : List Player) (sol : SolverOutcome) : Option String × List Player :=
  (if sol.status = LpStatus.Optimal then none
   else some ("Warning: Solver status: " ++ statusName sol.status),
   selectedSquad players sol.vals)

lemma countPos_cons (p : Player) (l : List Player) (r : String) :
    countPos (p :: l) r = (if p.pos = r then 1 else 0) + countPos l r := by
  by_cases h : p.pos = r <;> simp [countPos, List.filter_cons, h] <;> omega

lemma length_eq_sum_counts (l : List Player)
    (h : ∀ p ∈ l, p.pos = "GK" ∨ p.pos = "DEF" ∨ p.pos = "MID" ∨ p.pos = "FWD") :
    l.length = countPos l "GK" + countPos l "DEF" + countPos l "MID" + countPos l "FWD" := by
  induction l with
  | nil => simp [countPos]
  | cons p l ih =>
    have hrest := ih (fun q hq => h q (List.mem_cons_of_mem p hq))
    have hp := h p (List.mem_cons_self p l)
    rw [List.length_cons, countPos_cons, countPos_cons, countPos_cons, countPos_cons, hrest]
    rcases hp with h1 | h1 | h1 | h1 <;> rw [h1] <;> simp <;> omega

lemma countTeam_eq_zero (l : List Player) (t : String) (h : ∀ p ∈ l, p.team ≠ t) :
    countTeam l t = 0 := by
  unfold countTeam
  rw [List.length_eq_zero]
  rw [List.filter_eq_nil]
  intro p hp
  simpa using h p hp

lemma totalPoints_eq_zero (players other : List Player)
    (hz : ∀ p ∈ players, p.total_points = 0) (hs : other.Sublist players) :
    totalPoints other = 0 := by
  unfold totalPoints
  apply List.sum_eq_zero
  intro x hx
  obtain ⟨p, hp, rfl⟩ := List.mem_map.mp hx
  exact hz p (hs.subset hp)

lemma solverOk_allZeroPoints (players : List Player) (sol : SolverOutcome)
    (hz : ∀ p ∈ players, p.total_points = 0)
    (hsel : selectedSquad players sol.vals = players)
    (hfeas : Feasible players players) :
    SolverOk players sol := by
  intro _
  rw [hsel]
  refine ⟨hfeas, ?_⟩
  intro other hf
  rw [totalPoints_eq_zero players other hz hf.1,
      totalPoints_eq_zero players players hz (List.Sublist.refl _)]

/-- C1: every squad returned in the solved case satisfies all constraints
exactly: 15 = 2 + 5 + 5 + 3 selected players, exact per-role counts, at most
`MAX_PER_TEAM` players of any team, and total cost within
[`BUDGET * 0.99`, `BUDGET`].  The position hypothesis is the data-model
invariant that every input player carries one of the four roles. -/
theorem C1_solved_squad_satisfies_constraints
    (players : List Player) (sol : SolverOutcome)
    (hpos : ∀ p ∈ players, p.pos = "GK" ∨ p.pos = "DEF" ∨ p.pos = "MID" ∨ p.pos = "FWD")
    (hok : SolverOk players sol) (hopt : sol.status = LpStatus.Optimal) :
    ((optimize_squad players sol).2).length = 15 ∧
    (∀ pc ∈ SQUAD_STRUCTURE, countPos (optimize_squad players sol).2 pc.1 = pc.2) ∧
    (∀ t : String, countTeam (optimize_squad players sol).2 t ≤ MAX_PER_TEAM) ∧
    totalCost (optimize_squad players sol).2 ≤ BUDGET ∧
    BUDGET * 0.99 ≤ totalCost (optimize_squad players sol).2 := by
  obtain ⟨hfeas, -⟩ := hok hopt
  obtain ⟨hsub, hc1, hc2, hcounts, hteams⟩ := hfeas
  have hsq : (optimize_squad players sol).2 = selectedSquad players sol.vals := rfl
  rw [hsq]
  have hGK : countPos (selectedSquad players sol.vals) "GK" = 2 :=
    hcounts ("GK", 2) (by decide)
  have hDEF : countPos (selectedSquad players sol.vals) "DEF" = 5 :=
    hcounts ("DEF", 5) (by decide)
  have hMID : countPos (selectedSquad players sol.vals) "MID" = 5 :=
    hcounts ("MID", 5) (by decide)
  have hFWD : countPos (selectedSquad players sol.vals) "FWD" = 3 :=
    hcounts ("FWD", 3) (by decide)
  refine ⟨?_, hcounts, ?_, hc1, hc2⟩
  · have hmem : ∀ p ∈ selectedSquad players sol.vals,
        p.pos = "GK" ∨ p.pos = "DEF" ∨ p.pos = "MID" ∨ p.pos = "FWD" :=
      fun p hp => hpos p (hsub.subset hp)
    rw [length_eq_sum_counts _ hmem, hGK, hDEF, hMID, hFWD]
  · intro t
    by_cases ht : t ∈ teamsOf players
    · exact hteams t ht
    · have hz : ∀ p ∈ selectedSquad players sol.vals, p.team ≠ t := by
        intro p hp heq
        apply ht
        rw [← heq]
        exact List.mem_dedup.mpr (List.mem_map_of_mem Player.team (hsub.subset hp))
      rw [countTeam_eq_zero _ _ hz]
      exact Nat.zero_le _

/-- A concrete 15-player instance: exact quotas (2 GK, 5 DEF, 5 MID, 3 FWD),
five teams of three players each, total cost 5 × 8 + 10 × 6 = 100, all
projected points zero. -/
def players0 : List Player :=
  [⟨"A1", "GK", "T1", 8, 0⟩, ⟨"A2", "GK", "T1", 8, 0⟩,
   ⟨"D1", "DEF", "T1", 8, 0⟩, ⟨"D2", "DEF", "T2", 8, 0⟩, ⟨"D3", "DEF", "T2", 8, 0⟩,
   ⟨"D4", "DEF", "T2", 6, 0⟩, ⟨"D5", "DEF", "T3", 6, 0⟩,
   ⟨"M1", "MID", "T3", 6, 0⟩, ⟨"M2", "MID", "T3", 6, 0⟩, ⟨"M3", "MID", "T4", 6, 0⟩,
   ⟨"M4", "MID", "T4", 6, 0⟩, ⟨"M5", "MID", "T4", 6, 0⟩,
   ⟨"F1", "FWD", "T5", 6, 0⟩, ⟨"F2", "FWD", "T5", 6, 0⟩, ⟨"F3", "FWD", "T5", 6, 0⟩]

/-- A solver outcome selecting all fifteen players of `players0`. -/
def sol0 : SolverOutcome := ⟨LpStatus.Optimal, List.replicate 15 1⟩

lemma totalCost0 : totalCost players0 = 100 := by
  norm_num [totalCost, players0]

lemma feas0 : Feasible players0 players0 := by
  refine ⟨List.Sublist.refl _, ?_, ?_, ?_, ?_⟩
  · rw [totalCost0]; norm_num [BUDGET]
  · rw [totalCost0]; norm_num [BUDGET]
  · decide
  · decide

lemma sel0 : selectedSquad players0 sol0.vals = players0 := by
  norm_num [selectedSquad, players0, sol0, List.filter]

lemma solverOk0 : SolverOk players0 sol0 :=
  solverOk_allZeroPoints players0 sol0 (by decide) sel0 feas0

/-- Witness for C1: the hypotheses hold at the concrete instance `players0`,
`sol0`, and the returned squad meets every constraint. -/
theorem C1_solved_squad_satisfies_constraints_witness :
    (∀ p ∈ players0, p.pos = "GK" ∨ p.pos = "DEF" ∨ p.pos = "MID" ∨ p.pos = "FWD") ∧
    (((optimize_squad players0 sol0).2).length = 15 ∧
     (∀ pc ∈ SQUAD_STRUCTURE, countPos (optimize_squad players0 sol0).2 pc.1 = pc.2) ∧
     (∀ t : String, countTeam (optimize_squad players0 sol0).2 t ≤ MAX_PER_TEAM) ∧
     totalCost (optimize_squad players0 sol0).2 ≤ BUDGET ∧
     BUDGET * 0.99 ≤ totalCost (optimize_squad players0 sol0).2) :=
  ⟨by decide,
   C1_solved_squad_satisfies_constraints players0 sol0 (by decide) solverOk0 rfl⟩

/-- C2: in the solved case no other feasible selection (same budget ceiling
and floor, exact per-position counts, per-team cap) has strictly greater
total projected points than the returned squad. -/
theorem C2_solved_squad_optimal (players : List Player) (sol : SolverOutcome)
    (hok : SolverOk players sol) (hopt : sol.status = LpStatus.Optimal) :
    ∀ other : List Player, Feasible players other →
      totalPoints other ≤ totalPoints (optimize_squad players sol).2 :=
  fun other hf => (hok hopt).2 other hf

/-- Witness for C2 at the concrete instance `players0`, `sol0`, with the
feasible alternative being the full selection itself. -/
theorem C2_solved_squad_optimal_witness :
    Feasible players0 players0 ∧
    totalPoints players0 ≤ totalPoints (optimize_squad players0 sol0).2 :=
  ⟨feas0, C2_solved_squad_optimal players0 sol0 solverOk0 rfl players0 feas0⟩

/-- A one-player input on which no selection can satisfy the constraints:
a single defender, so no selection contains the required two goalkeepers. -/
def players3 : List Player := [⟨"A", "DEF", "T", 50, 10⟩]

/-- The solver outcome for `players3`: status `Infeasible`, no variable set. -/
def sol3 : SolverOutcome := ⟨LpStatus.Infeasible, []⟩

/-- Counterexample to C3 at a concrete input: `players3` admits no feasible
selection, the solver outcome respects the solver semantics, and yet
`optimize_squad` returns an ordinary (here empty) squad next to a printed
warning string — its result type carries no `Infeasible` signal, and the
function neither raises nor returns one. -/
theorem C3_counterexample_warns_and_returns_empty :
    (∀ sq : List Player, ¬ Feasible players3 sq) ∧
    SolverOk players3 sol3 ∧
    optimize_squad players3 sol3 = (some "Warning: Solver status: Infeasible", []) := by
  refine ⟨?_, ?_, rfl⟩
  · intro sq hf
    obtain ⟨hsub, -, -, hcounts, -⟩ := hf
    have hgk : countPos sq "GK" = 2 := hcounts ("GK", 2) (by decide)
    have h1 : sq.length ≤ 1 := by simpa [players3] using hsub.length_le
    have h2 : countPos sq "GK" ≤ sq.length := List.length_filter_le _ sq
    omega
  · intro h
    exact absurd h (by decide)

/-- C3 amended: on any non-`Optimal` solver status, `optimize_squad` prints a
warning naming the status and still returns the players whose variable values
exceed 0.5 — possibly an empty or partial squad; no `Infeasible` value is
returned or raised. -/
theorem C3_amended_warning_and_partial_squad (players : List Player) (sol : SolverOutcome)
    (h : sol.status ≠ LpStatus.Optimal) :
    optimize_squad players sol =
      (some ("Warning: Solver status: " ++ statusName sol.status),
       selectedSquad players sol.vals) := by
  simp [optimize_squad, h]

/-- Witness for the amended C3 at the concrete infeasible instance. -/
theorem C3_amended_warning_and_partial_squad_witness :
    sol3.status ≠ LpStatus.Optimal ∧
    optimize_squad players3 sol3 =
      (some ("Warning: Solver status: " ++ statusName sol3.status),
       selectedSquad players3 sol3.vals) :=
  ⟨by decide, C3_amended_warning_and_partial_squad players3 sol3 (by decide)⟩

/-- A feasible 15-player instance containing a malformed record: the defender
"D5" has a negative cost of -5 (the remaining fourteen players cost 7.5
each, so the total cost is 14 × 7.5 - 5 = 100). -/
def players5 : List Player :=
  [⟨"A1", "GK", "T1", 7.5, 0⟩, ⟨"A2", "GK", "T1", 7.5, 0⟩,
   ⟨"D1", "DEF", "T1", 7.5, 0⟩, ⟨"D2", "DEF", "T2", 7.5, 0⟩, ⟨"D3", "DEF", "T2", 7.5, 0⟩,
   ⟨"D4", "DEF", "T2", 7.5, 0⟩, ⟨"D5", "DEF", "T3", -5, 0⟩,
   ⟨"M1", "MID", "T3", 7.5, 0⟩, ⟨"M2", "MID", "T3", 7.5, 0⟩, ⟨"M3", "MID", "T4", 7.5, 0⟩,
   ⟨"M4", "MID", "T4", 7.5, 0⟩, ⟨"M5", "MID", "T4", 7.5, 0⟩,
   ⟨"F1", "FWD", "T5", 7.5, 0⟩, ⟨"F2", "FWD", "T5", 7.5, 0⟩, ⟨"F3", "FWD", "T5", 7.5, 0⟩]

/-- A solver outcome selecting all fifteen players of `players5`. -/
def sol5 : SolverOutcome := ⟨LpStatus.Optimal, List.replicate 15 1⟩

lemma totalCost5 : totalCost players5 = 100 := by
  norm_num [totalCost, players5]

lemma feas5 : Feasible players5 players5 := by
  refine ⟨List.Sublist.refl _, ?_, ?_, ?_, ?_⟩
  · rw [totalCost5]; norm_num [BUDGET]
  · rw [totalCost5]; norm_num [BUDGET]
  · decide
  · decide

lemma sel5 : selectedSquad players5 sol5.vals = players5 := by
  norm_num [selectedSquad, players5, sol5, List.filter]

lemma solverOk5 : SolverOk players5 sol5 :=
  solverOk_allZeroPoints players5 sol5 (by decide) sel5 feas5

/-- Counterexample to C5 at a concrete input: `players5` contains a record
with negative cost, yet the solve proceeds — the conforming solver reports
`Optimal`, `optimize_squad` emits no warning and returns a squad that still
contains the malformed record.  No `InvalidInput` error exists anywhere on
the path: the function has no validation branch and its result type carries
no error value. -/
theorem C5_counterexample_solver_runs_on_malformed_input :
    (∃ p ∈ players5, p.cost < 0) ∧
    SolverOk players5 sol5 ∧
    (optimize_squad players5 sol5).1 = none ∧
    (∃ p ∈ (optimize_squad players5 sol5).2, p.cost < 0) := by
  refine ⟨?_, solverOk5, rfl, ?_⟩
  · exact ⟨⟨"D5", "DEF", "T3", -5, 0⟩, by decide, by norm_num⟩
  · have hsq : (optimize_squad players5 sol5).2 = players5 := sel5
    rw [hsq]
    exact ⟨⟨"D5", "DEF", "T3", -5, 0⟩, by decide, by norm_num⟩

/-- C5 amended: `optimize_squad` performs no input validation at all — even
when the input contains a malformed record (negative cost or a position
outside the four roles) it formulates the program, consults the solver, and
returns the solver-derived squad, with a warning exactly when the status is
not `Optimal`; it never signals `InvalidInput`. -/
theorem C5_amended_no_input_validation (players : List Player) (sol : SolverOutcome)
    (hbad : ∃ p ∈ players, p.cost < 0 ∨
      (p.pos ≠ "GK" ∧ p.pos ≠ "DEF" ∧ p.pos ≠ "MID" ∧ p.pos ≠ "FWD")) :
    ((optimize_squad players sol).1 = none ↔ sol.status = LpStatus.Optimal) ∧
    (optimize_squad players sol).2 = selectedSquad players sol.vals := by
  constructor
  · unfold optimize_squad
    by_cases h : sol.status = LpStatus.Optimal <;> simp [h]
  · rfl

/-- Witness for the amended C5 at the concrete malformed instance. -/
theorem C5_amended_no_input_validation_witness :
    (∃ p ∈ players5, p.cost < 0 ∨
      (p.pos ≠ "GK" ∧ p.pos ≠ "DEF" ∧ p.pos ≠ "MID" ∧ p.pos ≠ "FWD")) ∧
    (((optimize_squad players5 sol5).1 = none ↔ sol5.status = LpStatus.Optimal) ∧
     (optimize_squad players5 sol5).2 = selectedSquad players5 sol5.vals) :=
  ⟨⟨⟨"D5", "DEF", "T3", -5, 0⟩, by decide, Or.inl (by norm_num)⟩,
   C5_amended_no_input_validation players5 sol5
     ⟨⟨"D5", "DEF", "T3", -5, 0⟩, by decide, Or.inl (by norm_num)⟩⟩

/-- `SEASON = "2025/2026"`. -/
def SEASON : String := "2025/2026"

/-- One row of the persisted stats cache
(`fpl_name, source_name, league, season, goals, assists, minutes, notes`). -/
structure CacheRec where
  fpl_name : String
  source_name : String
  league : String
  season : String
  goals : ℚ
  assists : ℚ
  minutes : ℚ
  notes : String
deriving DecidableEq, Repr

/-- Raw stats returned by one of the scraping backends. -/
structure ExtStats where
  league : String
  goals : ℚ
  assists : ℚ
  minutes : ℚ

/-- The cache probe of both `get_external` variants:
`cache[(cache["fpl_name"] == player_name) | (cache["source_name"] ==
web_name)]` followed by `row.iloc[0]` — the first row whose `fpl_name`
matches the player name or whose `source_name` matches the web name. -/
def cacheLookup (cache : List CacheRec) (pname wname : String) : Option CacheRec :=
  (cache.filter (fun r => r.fpl_name == pname || r.source_name == wname)).head?

/-- The source-fallback loop: try each scraping backend in order
(`[("Transfermarkt", fetch_tm_stats), ("FBref", fetch_fbref_stats)]`,
modelled as named oracles), take the first hit, and otherwise build the
all-zero "none" record with league "Unknown". -/
def lookup_sources (pname wname : String) :
    List (String × (String → Option ExtStats)) → CacheRec
  | [] => ⟨pname, wname, "Unknown", SEASON, 0, 0, 0, "none"⟩
  | (src, fn) :: rest =>
    match fn pname with
    | some s => ⟨pname, wname, s.league, SEASON, s.goals, s.assists, s.minutes, src⟩
    | none => lookup_sources pname wname rest

/-- `get_external_no_cache_update`: read-only cache probe, then the scraping
fallback chain; the cache is never modified (the function only returns the
record). -/
def get_external_no_cache_update (pname wname : String) (cache : List CacheRec)
    (sources : List (String × (String → Option ExtStats))) : CacheRec :=
  match cacheLookup cache pname wname with
  | some r => r
  | none => lookup_sources pname wname sources

/-- One row of the FPL players frame as `enrich_single` reads and writes it. -/
structure Row where
  name : String
  web_name : String
  pos : String
  team : String
  cost : ℚ
  total_points : ℚ
  estimated_points : Option ℚ
  ext_league : Option String
deriving DecidableEq, Repr

/-- `row["name"].strip() or row["web_name"].strip()`: the stripped name if it
is non-empty, else the stripped web name. -/
def lookup_name (r : Row) : String :=
  if r.name.trim = "" then r.web_name.trim else r.name.trim

/-- The projected points `enrich_single` computes and stores from a stats
record: weight the raw goals and assists by league strength, then apply the
position coefficients. -/
def projected_points (c : CacheRec) (pos : String) : ℚ :=
  let gwaw := weight_stats c.goals c.assists c.league
  estimate_fpl_pts gwaw.1 gwaw.2 pos

/-- `enrich_single(row, cache)`: when `ext_league` is missing, look the
player up (cache first, scrapers second), estimate points from the weighted
stats, and write `total_points`, `estimated_points` and `ext_league` back
into the row; otherwise return the row untouched. -/
def enrich_single (row : Row) (cache : List CacheRec)
    (sources : List (String × (String → Option ExtStats))) : Row :=
  match row.ext_league with
  | some _ => row
  | none =>
    let r := get_external_no_cache_update (lookup_name row) row.web_name cache sources
    let est := projected_points r row.pos
    { row with total_points := est, estimated_points := some est, ext_league := some r.league }

/-- The deferred-write tail of `enrich`: after the worker pool finishes, the
code sets `new_records = []`, appends each of its elements to the cache
(`for r in new_records: cache.loc[len(cache)] = r`) and saves the result. -/
def enrich_new_records : List CacheRec := []

/-- The cache contents passed to `save_cache` at the end of `enrich`. -/
def enrich_saved_cache (cache : List CacheRec) : List CacheRec :=
  enrich_new_records.foldl (fun c r => c ++ [r]) cache

/-- C6 (code bug): the deferred writer of `enrich` persists nothing — the
`new_records` list is created empty and never filled (the lookups run through
`get_external_no_cache_update`, which deliberately does not touch the
cache), so the saved cache equals the loaded cache, and every newly scraped
record of the run is lost rather than persisted exactly once. -/
theorem C6_new_lookups_never_persisted :
    ∀ cache : List CacheRec, enrich_saved_cache cache = cache := fun _ => rfl

/-- C7: feeding a cached stats record back through the weighting and
estimation functions reproduces exactly the projected points previously
computed and stored: two enrichment runs over the same cache row (same
player identity and position, both still unenriched, arbitrary and possibly
different scraper oracles) store the same value, namely the estimator
applied to the cached record. -/
theorem C7_cached_record_roundtrip (r1 r2 : Row) (cache : List CacheRec)
    (s1 s2 : List (String × (String → Option ExtStats))) (c : CacheRec)
    (h1 : r1.ext_league = none) (h2 : r2.ext_league = none)
    (hn : lookup_name r1 = lookup_name r2) (hw : r1.web_name = r2.web_name)
    (hp : r1.pos = r2.pos)
    (hc : cacheLookup cache (lookup_name r1) r1.web_name = some c) :
    (enrich_single r1 cache s1).total_points = projected_points c r1.pos ∧
    (enrich_single r2 cache s2).total_points = (enrich_single r1 cache s1).total_points := by
  have e1 : enrich_single r1 cache s1 =
      { r1 with total_points := projected_points c r1.pos,
                estimated_points := some (projected_points c r1.pos),
                ext_league := some c.league } := by
    unfold enrich_single
    rw [h1]
    unfold get_external_no_cache_update
    rw [hc]
  have e2 : enrich_single r2 cache s2 =
      { r2 with total_points := projected_points c r2.pos,
                estimated_points := some (projected_points c r2.pos),
                ext_league := some c.league } := by
    unfold enrich_single
    rw [h2]
    unfold get_external_no_cache_update
    rw [← hn, ← hw, hc]
  rw [e1, e2, hp]
  exact ⟨rfl, rfl⟩

/-- The concrete cache record, players-frame row and cache used by the C7
witness. -/
def rec7 : CacheRec := ⟨"John Doe", "Doe", "Eredivisie", SEASON, 12, 3, 900, "Transfermarkt"⟩

/-- The unenriched row of the C7 witness. -/
def row7 : Row := ⟨"John Doe", "Doe", "FWD", "T1", 5, 0, none, none⟩

/-- The one-record cache of the C7 witness. -/
def cache7 : List CacheRec := [rec7]

lemma cacheLookup7 : cacheLookup cache7 (lookup_name row7) row7.web_name = some rec7 := by
  simp [cacheLookup, cache7, rec7, row7, List.filter]

/-- Witness for C7: a concrete unenriched row and a one-record cache; the
two runs use different scraper oracles (the second would even report
different stats for the player), yet both reproduce the cached estimate. -/
theorem C7_cached_record_roundtrip_witness :
    cacheLookup cache7 (lookup_name row7) row7.web_name = some rec7 ∧
    ((enrich_single row7 cache7 []).total_points = projected_points rec7 row7.pos ∧
     (enrich_single row7 cache7
        [("Transfermarkt", fun _ => some ⟨"MLS", 99, 99, 99⟩)]).total_points
       = (enrich_single row7 cache7 []).total_points) :=
  ⟨cacheLookup7,
   C7_cached_record_roundtrip row7 row7 cache7
     [] [("Transfermarkt", fun _ => some ⟨"MLS", 99, 99, 99⟩)] rec7
     rfl rfl rfl rfl rfl cacheLookup7⟩

/-- `pos_order = {"GK": 0, "DEF": 1, "MID": 2, "FWD": 3}` from the
presentation block. -/
def pos_order : List (String × Nat) := [("GK", 0), ("DEF", 1), ("MID", 2), ("FWD", 3)]

/-- The sort key produced by `squad["pos"].map(pos_order)`: the rank of the
position, with unmapped positions (pandas NaN, placed last by
`sort_values`) modelled as rank 4. -/
def pos_order_key (p : Player) : Nat := (pos_order.lookup p.pos).getD 4

/-- The row comparison realised by
`sort_values(by=["pos_order", "total_points"], ascending=[True, False])`:
ascending position rank, then descending projected points. -/
def squad_le (a b : Player) : Bool :=
  decide (pos_order_key a < pos_order_key b) ||
  (pos_order_key a == pos_order_key b && decide (b.total_points ≤ a.total_points))

/-- The presentation sort applied to the squad before printing. -/
def sort_squad (squad : List Player) : List Player := squad.mergeSort squad_le

lemma squad_le_iff (a b : Player) :
    squad_le a b = true ↔
      (pos_order_key a < pos_order_key b ∨
       (pos_order_key a = pos_order_key b ∧ b.total_points ≤ a.total_points)) := by
  simp [squad_le]

lemma squad_le_trans (a b c : Player)
    (hab : squad_le a b = true) (hbc : squad_le b c = true) : squad_le a c = true := by
  rw [squad_le_iff] at hab hbc ⊢
  rcases hab with h1 | ⟨h1, h2⟩ <;> rcases hbc with h3 | ⟨h3, h4⟩
  · exact Or.inl (by omega)
  · exact Or.inl (by omega)
  · exact Or.inl (by omega)
  · exact Or.inr ⟨by omega, le_trans h4 h2⟩

lemma squad_le_total (a b : Player) : (squad_le a b || squad_le b a) = true := by
  rcases Nat.lt_trichotomy (pos_order_key a) (pos_order_key b) with h | h | h
  · simp [squad_le_iff a b, h]
  · rcases le_total b.total_points a.total_points with hq | hq
    · simp [squad_le_iff a b, h, hq]
    · simp [squad_le_iff b a, h, hq]
  · simp [squad_le_iff b a, h]

/-- C8: the printed squad listing is the input squad reordered (a
permutation), grouped by position in the fixed role order GK, DEF, MID, FWD
(ascending position rank), and within each position group ordered by
descending projected points. -/
theorem C8_output_grouped_by_role_points_desc (squad : List Player) :
    (sort_squad squad).Perm squad ∧
    List.Pairwise
      (fun a b => pos_order_key a < pos_order_key b ∨
        (pos_order_key a = pos_order_key b ∧ b.total_points ≤ a.total_points))
      (sort_squad squad) := by
  constructor
  · exact List.mergeSort_perm squad squad_le
  · exact (List.sorted_mergeSort squad_le_trans squad_le_total squad).imp
      (fun h => (squad_le_iff _ _).mp h)
